import Mathlib

/-!
Shallow embedding of the core pipeline of `main.py`
(buildfastwithai/interview-evaluation-fastapi): audio splitting,
chunked Whisper transcription, transcript quality gate, the three-way
analysis fan-out and the summary synthesis step, plus the two
comprehensive-analysis endpoints built from them.

Python string primitives (`strip`, `lower`, `count`, `split`, `join`,
`in`) are modelled at the character-list level; all functions are
executable.  External services (ffmpeg, Whisper, the OpenAI chat API)
are oracles: their per-call outcomes are explicit parameters.
-/

/-- Python `str.strip()` (ASCII whitespace, which covers every string in
the repository). -/
def pyStrip (s : String) : String :=
  ⟨((s.data.dropWhile Char.isWhitespace).reverse.dropWhile Char.isWhitespace).reverse⟩

/-- Python `sep.join(xs)`. -/
def pyJoin (sep : String) : List String → String
  | [] => ""
  | [s] => s
  | s :: t :: rest => s ++ sep ++ pyJoin sep (t :: rest)

/-- Python `str.lower()` (ASCII). -/
def pyLower (s : String) : String :=
  ⟨s.data.map Char.toLower⟩

/-- Left-to-right non-overlapping occurrence scan, with explicit fuel so
that it is structurally recursive (every step consumes at least one
character, so `fuel = length` is always enough). -/
def countOccAux (pat : List Char) : Nat → List Char → Nat
  | 0, _ => 0
  | _, [] => 0
  | fuel + 1, c :: t =>
    if pat ≠ [] ∧ pat.isPrefixOf (c :: t) then
      1 + countOccAux pat fuel ((c :: t).drop pat.length)
    else
      countOccAux pat fuel t

/-- Python `haystack.count(pat)` for a non-empty pattern: number of
non-overlapping occurrences, scanning left to right. -/
def countOcc (pat l : List Char) : Nat :=
  countOccAux pat l.length l

/-- Python `pat in haystack` (substring test). -/
def containsSub (pat : List Char) : List Char → Bool
  | [] => pat.isEmpty
  | c :: t => pat.isPrefixOf (c :: t) || containsSub pat t

/-- Word-counting scan with explicit fuel so that it is structurally
recursive (every step consumes at least one character). -/
def pyWordCountAux : Nat → List Char → Nat
  | 0, _ => 0
  | _, [] => 0
  | fuel + 1, c :: t =>
    if c.isWhitespace then pyWordCountAux fuel t
    else 1 + pyWordCountAux fuel (t.dropWhile (fun x => !x.isWhitespace))

/-- Number of words of Python `str.split()` (split on whitespace runs,
empties dropped). -/
def pyWordCount (l : List Char) : Nat :=
  pyWordCountAux l.length l

/-- Python `str.split(',')` (keeps empty fields). -/
def splitCharList (sep : Char) : List Char → List (List Char)
  | [] => [[]]
  | c :: t =>
    if c = sep then [] :: splitCharList sep t
    else
      match splitCharList sep t with
      | [] => [[c]]
      | h :: r => (c :: h) :: r

/-- Model of the list comprehension
`[skill.strip() for skill in skills_to_assess.split(",") if skill.strip()]`. -/
def parseSkillsInput (s : String) : List String :=
  ((splitCharList ',' s.data).map (fun w => pyStrip ⟨w⟩)).filter (fun w => w ≠ "")

/-! ## Quality gate (`validate_transcript_quality`, main.py lines 400-419) -/

/-- Source list `error_indicators`; the last entry is `"..." * 3`. -/
def error_indicators : List String :=
  ["[inaudible]", "[unclear]", "???", "........."]

/-- Source list `question_indicators`. -/
def question_indicators : List String :=
  ["?", "tell me", "describe", "explain", "what is", "how do", "why"]

/-- Model of `validate_transcript_quality` from main.py.  The float comparison
`error_count > len(transcript.split()) * 0.1` is modelled by the exact
integer comparison `10 * error_count > word_count`: for the integer
counts involved the double rounding of `n * 0.1` never crosses an
integer, so the two decisions agree (the exact-rational form appears in
`validateQualitySpec` and the two are proved equal). -/
def validate_transcript_quality (transcript : String) : Bool × String :=
  if transcript = "" ∨ (pyStrip transcript).length < 50 then
    (false, "Transcript too short for meaningful analysis")
  else if 10 * (error_indicators.map
        (fun ind => countOcc ind.data (pyLower transcript).data)).sum >
      pyWordCount transcript.data then
    (false, "Transcript quality too poor for reliable analysis")
  else if ¬ (question_indicators.any
      (fun ind => containsSub ind.data (pyLower transcript).data)) then
    (false, "Content does not appear to be an interview format")
  else
    (true, "Transcript quality acceptable")

/-- The quality gate as described by the specification: reject when the
trimmed length is below 50, else reject when the error-indicator count
exceeds 10% of the word count (stated as an exact rational fraction),
else reject when no interview indicator appears, else accept. -/
def validateQualitySpec (transcript : String) : Bool × String :=
  if (pyStrip transcript).length < 50 then
    (false, "Transcript too short for meaningful analysis")
  else if ((error_indicators.map
        (fun ind => countOcc ind.data (pyLower transcript).data)).sum : ℚ) >
      (pyWordCount transcript.data : ℚ) * (1 / 10) then
    (false, "Transcript quality too poor for reliable analysis")
  else if ¬ (question_indicators.any
      (fun ind => containsSub ind.data (pyLower transcript).data)) then
    (false, "Content does not appear to be an interview format")
  else
    (true, "Transcript quality acceptable")

/-! ## Splitter (`split_audio_file`, main.py lines 243-289) -/

/-- Result of the splitting decision: either the original file untouched,
or the list of `(start_time, chunk_duration)` extraction windows. -/
inductive SplitPlan where
  | single
  | chunks (segs : List (ℚ × ℚ))
deriving DecidableEq

/-- Chunking arithmetic of `split_audio_file`.  `probedDuration` is the
ffmpeg probe outcome (`none` = probing failed, triggering the constant
128 kbps estimate); sizes are exact naturals, durations exact
rationals. -/
def split_audio_file (fileSize : Nat) (probedDuration : Option ℚ)
    (max_size_mb : Nat) : SplitPlan :=
  let max_size_bytes := max_size_mb * 1024 * 1024
  if fileSize ≤ max_size_bytes then .single
  else
    let num_chunks : Nat := (⌈(fileSize : ℚ) / (max_size_bytes : ℚ)⌉).toNat
    let duration := probedDuration.getD ((fileSize : ℚ) / (128 * 1024 / 8 : ℚ))
    let chunk_duration := duration / (num_chunks : ℚ)
    .chunks ((List.range num_chunks).map
      (fun i => ((i : ℚ) * chunk_duration, chunk_duration)))

/-- The splitter as described by the specification: single chunk when
`S ≤ T`, else `numChunks = ceil(S/T)` (natural ceiling division) equal
segments of `duration / numChunks`, segment `i` starting at
`i * chunkDuration`. -/
def splitSpec (fileSize : Nat) (probedDuration : Option ℚ)
    (maxChunkMB : Nat) : SplitPlan :=
  let maxChunkBytes := maxChunkMB * 1024 * 1024
  if fileSize ≤ maxChunkBytes then .single
  else
    let numChunks : Nat := (fileSize + maxChunkBytes - 1) / maxChunkBytes
    let duration := probedDuration.getD ((fileSize : ℚ) / (128 * 1024 / 8 : ℚ))
    let chunkDuration := duration / (numChunks : ℚ)
    .chunks ((List.range numChunks).map
      (fun i => ((i : ℚ) * chunkDuration, chunkDuration)))

/-- The chunk-extraction loop of `split_audio_file` (lines 269-289):
`extractOk i` is the ffmpeg outcome for chunk `i`.  Returns the
operation result together with the chunk files left on disk; on the
first failure every file in `chunk_files` is removed and the whole
split fails. -/
def splitChunksLoop (extractOk : Nat → Bool) :
    Nat → Nat → List Nat → Except String (List Nat) × List Nat
  | 0, _, chunk_files => (.ok chunk_files, chunk_files)
  | n + 1, i, chunk_files =>
    if extractOk i then splitChunksLoop extractOk n (i + 1) (chunk_files ++ [i])
    else (.error "Failed to split audio file", [])

/-- Run the extraction loop for `num_chunks` chunks starting from an
empty working set. -/
def splitChunksRun (extractOk : Nat → Bool) (num_chunks : Nat) :
    Except String (List Nat) × List Nat :=
  splitChunksLoop extractOk num_chunks 0 []

/-! ## Transcription engine (`transcribe_with_whisper`, main.py lines 291-358) -/

/-- Outcome of one Whisper call on one chunk. -/
inductive ChunkResult where
  | ok (text : String)
  | timeout
  | err
deriving DecidableEq

/-- Placeholder text `[Error transcribing chunk i]` substituted for a
failed chunk. -/
def chunkPlaceholder (i : Nat) : String :=
  "[Error transcribing chunk " ++ toString i ++ "]"

/-- HTTPException raised to the request boundary. -/
inductive HErr where
  | http (status : Nat) (detail : String)
deriving DecidableEq

/-- The per-chunk loop of `transcribe_with_whisper`: success appends the
chunk text, a timeout aborts with the 1-based chunk number, any other
error appends the placeholder and continues. -/
def processChunks : List ChunkResult → Nat → Except Nat (List String)
  | [], _ => .ok []
  | .ok t :: rest, i => (processChunks rest (i + 1)).map (fun ts => t :: ts)
  | .timeout :: _, i => .error (i + 1)
  | .err :: rest, i =>
    (processChunks rest (i + 1)).map (fun ts => chunkPlaceholder (i + 1) :: ts)

/-- Model of `transcribe_with_whisper`: API-key check, splitting (whose failure is
wrapped in a 500), the per-chunk loop, the space-join, and the
empty-transcript guard.  Returns the transcript and the chunk count. -/
def transcribe_with_whisper (apiKey : Option String)
    (splitOutcome : Except String (List ChunkResult)) :
    Except HErr (String × Nat) :=
  match apiKey with
  | none => .error (.http 500 "OpenAI API key not configured.")
  | some _ =>
    match splitOutcome with
    | .error msg => .error (.http 500 ("Whisper transcription error: " ++ msg))
    | .ok chunk_files =>
      match processChunks chunk_files 0 with
      | .error k =>
        .error (.http 408 ("Transcription timeout for chunk " ++ toString k ++
          ". Please try with a shorter audio file."))
      | .ok transcriptions =>
        if pyStrip (pyJoin " " transcriptions) = "" then
          .error (.http 500 "No transcript generated. Please check the audio file.")
        else
          .ok (pyJoin " " transcriptions, chunk_files.length)

/-- Python `str.endswith(suf)`. -/
def pyEndsWith (s suf : String) : Bool :=
  suf.data.isSuffixOf s.data

/-- The `finally` cleanup of `transcribe_with_whisper` (lines 337-358):
remove the source audio file, then remove every directory entry whose
name satisfies `file.endswith("_chunk_") and file.endswith(".mp3")`,
then remove the directory if it is now empty.  Returns the files left
in the directory and whether the directory itself was removed. -/
def whisperCleanup (dirFiles : List String) (audioName : String) :
    List String × Bool :=
  let after_audio := dirFiles.erase audioName
  let remaining := after_audio.filter
    (fun f => !(pyEndsWith f "_chunk_" && pyEndsWith f ".mp3"))
  (remaining, remaining.isEmpty)

/-! ## Structured analysis data model (main.py lines 51-125) -/

/-- Enum `SkillLevel`. -/
inductive SkillLevel where
  | beginner
  | intermediate
  | advanced
  | expert
  | notDemonstrated
deriving DecidableEq

/-- Parse a JSON `level` string against the `SkillLevel` enum values. -/
def parseSkillLevel (s : String) : Option SkillLevel :=
  if s = "Beginner" then some .beginner
  else if s = "Intermediate" then some .intermediate
  else if s = "Advanced" then some .advanced
  else if s = "Expert" then some .expert
  else if s = "Not Demonstrated" then some .notDemonstrated
  else none

/-- Enum `GradeLevel`. -/
inductive GradeLevel where
  | excellent
  | good
  | average
  | belowAverage
  | poor
deriving DecidableEq

/-- Parse a JSON `grade` string against the `GradeLevel` enum values. -/
def parseGradeLevel (s : String) : Option GradeLevel :=
  if s = "Excellent" then some .excellent
  else if s = "Good" then some .good
  else if s = "Average" then some .average
  else if s = "Below Average" then some .belowAverage
  else if s = "Poor" then some .poor
  else none

/-- Pydantic `SkillAssessment`.  Scores are exact rationals. -/
structure SkillAssessment where
  skill : String
  level : SkillLevel
  confidence_score : ℚ
  evidence : String
  recommendations : String
deriving DecidableEq

/-- One raw JSON item of the `assessments` array, before Pydantic
validation: every field may be missing or (for enums/bounded numbers)
out of range. -/
structure RawSkillAssessment where
  skill : Option String
  level : Option String
  confidence_score : Option ℚ
  evidence : Option String
  recommendations : Option String
deriving DecidableEq

/-- Validation `SkillAssessment(**assessment)`: Pydantic checking of one raw item
(required fields present, `level` a valid enum value,
`confidence_score` within `[0, 100]`). -/
def validateSkillAssessment (r : RawSkillAssessment) : Option SkillAssessment :=
  match r.skill, r.level, r.confidence_score, r.evidence, r.recommendations with
  | some sk, some lv, some cs, some ev, some rc =>
    match parseSkillLevel lv with
    | some level => if 0 ≤ cs ∧ cs ≤ 100 then some ⟨sk, level, cs, ev, rc⟩ else none
    | none => none
  | _, _, _, _, _ => none

/-- Pydantic `QuestionAnswer`. -/
structure QuestionAnswer where
  question : String
  answer : String
  grade : GradeLevel
  score : ℚ
  feedback : String
  key_points_covered : List String
  areas_for_improvement : List String
deriving DecidableEq

/-- One raw JSON item of the `qa_pairs` array before validation; the two
list fields have Pydantic defaults, the rest are required. -/
structure RawQuestionAnswer where
  question : Option String
  answer : Option String
  grade : Option String
  score : Option ℚ
  feedback : Option String
  key_points_covered : Option (List String)
  areas_for_improvement : Option (List String)
deriving DecidableEq

/-- Validation `QuestionAnswer(**qa)`: Pydantic checking of one raw Q&A item
(required fields present, `grade` a valid enum value, `score` within
`[0, 100]`, list fields defaulting to `[]`). -/
def validateQuestionAnswer (r : RawQuestionAnswer) : Option QuestionAnswer :=
  match r.question, r.answer, r.grade, r.score, r.feedback with
  | some q, some a, some g, some sc, some fb =>
    match parseGradeLevel g with
    | some grade =>
      if 0 ≤ sc ∧ sc ≤ 100 then
        some ⟨q, a, grade, sc, fb, r.key_points_covered.getD [],
          r.areas_for_improvement.getD []⟩
      else none
    | none => none
  | _, _, _, _, _ => none

/-- Pydantic `InterviewInsights`. -/
structure InterviewInsights where
  overall_performance_score : ℚ
  communication_clarity : ℚ
  technical_depth : ℚ
  problem_solving_ability : ℚ
  confidence_level : ℚ
  strengths : List String
  weaknesses : List String
  key_achievements_mentioned : List String
  red_flags : List String
  interview_duration_analysis : String
  speech_patterns : String
  engagement_level : String
  cultural_fit_indicators : List String
  hiring_recommendation : String
  next_steps : List String
deriving DecidableEq

/-- The raw JSON object for `InterviewInsights` before validation; the
list fields have Pydantic defaults, the rest are required. -/
structure RawInterviewInsights where
  overall_performance_score : Option ℚ
  communication_clarity : Option ℚ
  technical_depth : Option ℚ
  problem_solving_ability : Option ℚ
  confidence_level : Option ℚ
  strengths : Option (List String)
  weaknesses : Option (List String)
  key_achievements_mentioned : Option (List String)
  red_flags : Option (List String)
  interview_duration_analysis : Option String
  speech_patterns : Option String
  engagement_level : Option String
  cultural_fit_indicators : Option (List String)
  hiring_recommendation : Option String
  next_steps : Option (List String)
deriving DecidableEq

/-- Validation `InterviewInsights(**result)`: Pydantic checking of the whole
object (required fields present, the five scores within `[0, 100]`,
lists defaulting to `[]`). -/
def validateInterviewInsights (r : RawInterviewInsights) : Option InterviewInsights :=
  match r.overall_performance_score, r.communication_clarity, r.technical_depth,
      r.problem_solving_ability, r.confidence_level with
  | some ops, some cc, some td, some psa, some cl =>
    match r.interview_duration_analysis, r.speech_patterns, r.engagement_level,
        r.hiring_recommendation with
    | some ida, some sp, some el, some hr =>
      if (0 ≤ ops ∧ ops ≤ 100) ∧ (0 ≤ cc ∧ cc ≤ 100) ∧ (0 ≤ td ∧ td ≤ 100) ∧
          (0 ≤ psa ∧ psa ≤ 100) ∧ (0 ≤ cl ∧ cl ≤ 100) then
        some ⟨ops, cc, td, psa, cl, r.strengths.getD [], r.weaknesses.getD [],
          r.key_achievements_mentioned.getD [], r.red_flags.getD [], ida, sp, el,
          r.cultural_fit_indicators.getD [], hr, r.next_steps.getD []⟩
      else none
    | _, _, _, _ => none
  | _, _, _, _, _ => none

/-! ## External text-generation service calls (main.py lines 360-725) -/

/-- Outcome of one OpenAI chat-completions call, as seen by the caller:
either the (already JSON-decoded) payload, a timeout, or any other
exception with its message. -/
inductive ApiError where
  | timeout
  | fail (msg : String)
deriving DecidableEq

/-- Message `str(e)` for the exception behind an `ApiError`. -/
def apiErrorMsg : ApiError → String
  | .timeout => "Request timed out."
  | .fail m => m

/-- Model of `format_with_openai` (lines 360-382): key check, then the chat call;
a timeout maps to HTTP 408 and any other error to HTTP 500. -/
def format_with_openai (apiKey : Option String)
    (service : Except ApiError String) : Except HErr String :=
  match apiKey with
  | none => .error (.http 500 "OpenAI API key not configured.")
  | some _ =>
    match service with
    | .ok t => .ok t
    | .error .timeout => .error (.http 408 "OpenAI API timeout. Please try again.")
    | .error (.fail m) => .error (.http 500 ("OpenAI API error: " ++ m))

/-- Model of `assess_skills_with_openai` (lines 421-509): key check, skill-list
validation, then the structured call; items failing Pydantic
validation are dropped one by one, any call-level failure becomes
HTTP 500. -/
def assess_skills_with_openai (apiKey : Option String) (skills : List String)
    (service : Except ApiError (List RawSkillAssessment)) :
    Except HErr (List SkillAssessment) :=
  match apiKey with
  | none => .error (.http 500 "OpenAI API key not configured.")
  | some _ =>
    if skills = [] then
      .error (.http 400 "No skills provided for assessment")
    else if skills.length > 20 then
      .error (.http 400 "Too many skills requested. Maximum 20 skills allowed.")
    else
      match service with
      | .error e => .error (.http 500 ("Skill assessment error: " ++ apiErrorMsg e))
      | .ok raws => .ok (raws.filterMap validateSkillAssessment)

/-- Model of `extract_qa_with_openai` (lines 511-600): key check, then the
structured call; items failing Pydantic validation are dropped one by
one, any call-level failure becomes HTTP 500. -/
def extract_qa_with_openai (apiKey : Option String)
    (service : Except ApiError (List RawQuestionAnswer)) :
    Except HErr (List QuestionAnswer) :=
  match apiKey with
  | none => .error (.http 500 "OpenAI API key not configured.")
  | some _ =>
    match service with
    | .error e => .error (.http 500 ("Q&A extraction error: " ++ apiErrorMsg e))
    | .ok raws => .ok (raws.filterMap validateQuestionAnswer)

/-- Model of `generate_interview_insights_with_openai` (lines 602-676): key
check, then the structured call; here a Pydantic validation failure of
the single returned object is itself a call-level failure (HTTP 500),
there is no item-level tolerance. -/
def generate_interview_insights_with_openai (apiKey : Option String)
    (service : Except ApiError RawInterviewInsights) :
    Except HErr InterviewInsights :=
  match apiKey with
  | none => .error (.http 500 "OpenAI API key not configured.")
  | some _ =>
    match service with
    | .error e =>
      .error (.http 500 ("Interview insights generation error: " ++ apiErrorMsg e))
    | .ok raw =>
      match validateInterviewInsights raw with
      | some v => .ok v
      | none =>
        .error (.http 500 ("Interview insights generation error: " ++
          "validation error"))

/-- Model of `generate_analysis_summary_with_openai` (lines 678-725): key check
raises, but a failing summary call is caught and turned into the
degraded placeholder text `"Summary generation failed: ..."` instead of
an error. -/
def generate_analysis_summary_with_openai (apiKey : Option String)
    (service : Except ApiError String) : Except HErr String :=
  match apiKey with
  | none => .error (.http 500 "OpenAI API key not configured.")
  | some _ =>
    match service with
    | .ok s => .ok s
    | .error e => .ok ("Summary generation failed: " ++ apiErrorMsg e)

/-! ## The comprehensive-analysis endpoints (main.py lines 1080-1400) -/

/-- Structure `ComprehensiveAnalysisResponse`. -/
structure ComprehensiveAnalysisResponse where
  video_id : Option String
  filename : Option String
  raw_transcript : String
  formatted_transcript : String
  ai_provider : String
  file_chunks : Option Nat
  skill_assessments : List SkillAssessment
  questions_and_answers : List QuestionAnswer
  interview_insights : InterviewInsights
  analysis_summary : String
deriving DecidableEq

/-- Set `allowed_extensions` of `/analyze-interview`. -/
def allowed_extensions : List String :=
  [".mp3", ".wav", ".m4a", ".mp4", ".avi", ".mov", ".webm", ".mkv"]

/-- Constant `MAX_FILE_SIZE = 100 * 1024 * 1024`. -/
def MAX_FILE_SIZE : Nat := 100 * 1024 * 1024

/-- The `/analyze-interview` endpoint (`analyze_interview_comprehensive`,
lines 1080-1204): input validation, transcription, quality gate,
formatting, the three analysis tasks submitted to a 3-worker pool and
joined in submission order (`skill`, `qa`, `insights` — the join is a
barrier, so outcome-wise this equals binding them in that order), the
summary step, then the assembled response.  External-call outcomes are
the oracle parameters. -/
def analyze_interview_comprehensive
    (fileExtension filename skills_to_assess ai_provider : String)
    (fileSize : Nat) (apiKey : Option String)
    (splitOutcome : Except String (List ChunkResult))
    (formatSvc : Except ApiError String)
    (skillsSvc : Except ApiError (List RawSkillAssessment))
    (qaSvc : Except ApiError (List RawQuestionAnswer))
    (insightsSvc : Except ApiError RawInterviewInsights)
    (summarySvc : Except ApiError String) :
    Except HErr ComprehensiveAnalysisResponse :=
  if fileExtension ∉ allowed_extensions then
    .error (.http 400 ("Unsupported file type. Allowed: " ++
      pyJoin ", " allowed_extensions))
  else
    let skills_list := parseSkillsInput skills_to_assess
    if skills_list = [] then
      .error (.http 400 "At least one skill must be provided")
    else if skills_list.length > 20 then
      .error (.http 400 "Maximum 20 skills allowed per analysis")
    else if ai_provider ≠ "openai" then
      .error (.http 400 "Currently only OpenAI supports comprehensive structured analysis")
    else if MAX_FILE_SIZE < fileSize then
      .error (.http 413 "File too large. Maximum size allowed is 100MB.")
    else
      match transcribe_with_whisper apiKey splitOutcome with
      | .error e => .error e
      | .ok (raw_transcript, num_chunks) =>
        if (validate_transcript_quality raw_transcript).1 = false then
          .error (.http 400 ("Transcript validation failed: " ++
            (validate_transcript_quality raw_transcript).2))
        else
          match format_with_openai apiKey formatSvc with
          | .error e => .error e
          | .ok formatted_transcript =>
            match assess_skills_with_openai apiKey skills_list skillsSvc with
            | .error e => .error e
            | .ok skill_assessments =>
              match extract_qa_with_openai apiKey qaSvc with
              | .error e => .error e
              | .ok questions_and_answers =>
                match generate_interview_insights_with_openai apiKey insightsSvc with
                | .error e => .error e
                | .ok interview_insights =>
                  match generate_analysis_summary_with_openai apiKey summarySvc with
                  | .error e => .error e
                  | .ok analysis_summary =>
                    .ok ⟨none, some filename, raw_transcript, formatted_transcript,
                      ai_provider, some num_chunks, skill_assessments,
                      questions_and_answers, interview_insights, analysis_summary⟩

/-- The `/analyze-transcript` endpoint (`analyze_transcript`, lines
1293-1402): like `/analyze-interview` but the transcript is read
straight from the uploaded text/PDF file (`fileRead` is the read/extract
outcome), there is no transcription stage and `file_chunks` is the
literal `1`. -/
def analyze_transcript
    (filename skills_to_assess ai_provider : String)
    (apiKey : Option String)
    (fileRead : Except String String)
    (formatSvc : Except ApiError String)
    (skillsSvc : Except ApiError (List RawSkillAssessment))
    (qaSvc : Except ApiError (List RawQuestionAnswer))
    (insightsSvc : Except ApiError RawInterviewInsights)
    (summarySvc : Except ApiError String) :
    Except HErr ComprehensiveAnalysisResponse :=
  let skills_list := parseSkillsInput skills_to_assess
  if skills_list = [] then
    .error (.http 400 "At least one skill must be provided")
  else if skills_list.length > 20 then
    .error (.http 400 "Maximum 20 skills allowed per analysis")
  else if ai_provider ≠ "openai" then
    .error (.http 400 "Currently only OpenAI supports comprehensive structured analysis")
  else
    match fileRead with
    | .error e => .error (.http 400 ("Error reading file: " ++ e))
    | .ok raw_transcript =>
      if (validate_transcript_quality raw_transcript).1 = false then
        .error (.http 400 ("Transcript validation failed: " ++
          (validate_transcript_quality raw_transcript).2))
      else
        match format_with_openai apiKey formatSvc with
        | .error e => .error e
        | .ok formatted_transcript =>
          match assess_skills_with_openai apiKey skills_list skillsSvc with
          | .error e => .error e
          | .ok skill_assessments =>
            match extract_qa_with_openai apiKey qaSvc with
            | .error e => .error e
            | .ok questions_and_answers =>
              match generate_interview_insights_with_openai apiKey insightsSvc with
              | .error e => .error e
              | .ok interview_insights =>
                match generate_analysis_summary_with_openai apiKey summarySvc with
                | .error e => .error e
                | .ok analysis_summary =>
                  .ok ⟨none, some filename, raw_transcript, formatted_transcript,
                    ai_provider, some 1, skill_assessments,
                    questions_and_answers, interview_insights, analysis_summary⟩

/-! ## Concrete data used to instantiate the theorems -/

/-- A transcript that passes the quality gate. -/
def goodTranscript : String :=
  "What is your experience with Python? Tell me about your recent projects and your testing practice."

/-- A well-formed raw Q&A item with the given question and score. -/
def rawQAItem (q : String) (sc : ℚ) : RawQuestionAnswer :=
  ⟨some q, some "answer", some "Good", some sc, some "feedback", none, none⟩

/-- A five-item Q&A service payload whose third item has a score of 150,
outside the `[0, 100]` bound, and therefore fails schema validation. -/
def fiveRawQA : List RawQuestionAnswer :=
  [rawQAItem "q1" 80, rawQAItem "q2" 70,
   ⟨some "q3", some "a3", some "Good", some 150, some "f3", none, none⟩,
   rawQAItem "q4" 60, rawQAItem "q5" 90]

/-- The four items of `fiveRawQA` that survive validation, in order. -/
def fourValidQA : List QuestionAnswer :=
  [⟨"q1", "answer", .good, 80, "feedback", [], []⟩,
   ⟨"q2", "answer", .good, 70, "feedback", [], []⟩,
   ⟨"q4", "answer", .good, 60, "feedback", [], []⟩,
   ⟨"q5", "answer", .good, 90, "feedback", [], []⟩]

/-- A raw insights payload that passes validation. -/
def sampleRawInsights : RawInterviewInsights :=
  ⟨some 80, some 75, some 70, some 85, some 90, none, none, none, none,
   some "45 minutes", some "clear", some "high", none, some "Hire", none⟩

/-- The validated form of `sampleRawInsights`. -/
def sampleInsights : InterviewInsights :=
  ⟨80, 75, 70, 85, 90, [], [], [], [], "45 minutes", "clear", "high", [], "Hire", []⟩

/-- Decidable equality of `Except` results, used to evaluate the model on
concrete inputs. -/
instance {ε α : Type} [DecidableEq ε] [DecidableEq α] :
    DecidableEq (Except ε α) := fun x y =>
  match x, y with
  | .ok a, .ok b =>
    if h : a = b then .isTrue (by rw [h]) else
      .isFalse (by intro he; cases he; exact h rfl)
  | .error a, .error b =>
    if h : a = b then .isTrue (by rw [h]) else
      .isFalse (by intro he; cases he; exact h rfl)
  | .ok _, .error _ => .isFalse (by intro he; cases he)
  | .error _, .ok _ => .isFalse (by intro he; cases he)

/-! ## Helper lemmas -/

theorem transcribe_ok_of_processChunks (key : String) (chunks : List ChunkResult)
    (ts : List String) (hp : processChunks chunks 0 = .ok ts)
    (hne : pyStrip (pyJoin " " ts) ≠ "") :
    transcribe_with_whisper (some key) (.ok chunks) =
      .ok (pyJoin " " ts, chunks.length) := by
  have hred : transcribe_with_whisper (some key) (.ok chunks) =
      (match processChunks chunks 0 with
       | .error k =>
         .error (.http 408 ("Transcription timeout for chunk " ++ toString k ++
           ". Please try with a shorter audio file."))
       | .ok transcriptions =>
         if pyStrip (pyJoin " " transcriptions) = "" then
           .error (.http 500 "No transcript generated. Please check the audio file.")
         else
           .ok (pyJoin " " transcriptions, chunks.length)) := rfl
  rw [hred, hp]
  exact if_neg hne

theorem pyStrip_ne_empty {s : String} {c : Char} (hc : c ∈ s.data)
    (hw : c.isWhitespace = false) : pyStrip s ≠ "" := by
  intro h
  have hdata : ((s.data.dropWhile Char.isWhitespace).reverse.dropWhile
      Char.isWhitespace).reverse = [] := by
    have := congrArg String.data h
    simpa [pyStrip] using this
  rw [List.reverse_eq_nil_iff, List.dropWhile_eq_nil_iff] at hdata
  have hall : ∀ x ∈ s.data, x.isWhitespace = true := by
    intro x hx
    rcases (List.mem_append.mp (by
      rw [List.takeWhile_append_dropWhile (p := Char.isWhitespace)]
      exact hx)) with hx1 | hx2
    · exact List.mem_takeWhile_imp hx1
    · exact hdata x (List.mem_reverse.mpr hx2)
  rw [hall c hc] at hw
  cases hw

theorem mem_data_pyJoin {sep : String} :
    ∀ {l : List String} {t : String}, t ∈ l →
      ∀ {c : Char}, c ∈ t.data → c ∈ (pyJoin sep l).data := by
  intro l
  induction l with
  | nil => intro t ht; cases ht
  | cons s rest ih =>
    intro t ht c hc
    cases rest with
    | nil =>
      rcases List.mem_singleton.mp ht with rfl
      exact hc
    | cons u rest2 =>
      show c ∈ ((s ++ sep) ++ pyJoin sep (u :: rest2)).data
      rw [String.data_append]
      rcases List.mem_cons.mp ht with rfl | ht2
      · exact List.mem_append_left _ (by rw [String.data_append]; exact List.mem_append_left _ hc)
      · exact List.mem_append_right _ (ih ht2 hc)

theorem lbrack_mem_chunkPlaceholder (k : Nat) :
    '[' ∈ (chunkPlaceholder k).data := by
  unfold chunkPlaceholder
  rw [String.data_append]
  exact List.mem_append_left _ (by rw [String.data_append]; exact List.mem_append_left _ (by decide))

theorem processChunks_map_ok (l : List String) (rest : List ChunkResult) (i : Nat) :
    processChunks (l.map ChunkResult.ok ++ rest) i =
      (processChunks rest (i + l.length)).map (fun ts => l ++ ts) := by
  induction l generalizing i with
  | nil =>
    simp only [List.map_nil, List.nil_append, List.length_nil, Nat.add_zero]
    cases h : processChunks rest i <;> simp [h, Except.map]
  | cons c l2 ih =>
    have hstep : processChunks ((c :: l2).map ChunkResult.ok ++ rest) i =
        (processChunks (l2.map ChunkResult.ok ++ rest) (i + 1)).map
          (fun ts => c :: ts) := rfl
    rw [hstep, ih (i + 1), List.length_cons,
      show i + (l2.length + 1) = i + 1 + l2.length from by omega]
    cases h : processChunks rest (i + 1 + l2.length) <;> simp [h, Except.map]

theorem processChunks_all_ok (l : List String) (i : Nat) :
    processChunks (l.map ChunkResult.ok) i = .ok l := by
  have := processChunks_map_ok l [] i
  simpa [processChunks, Except.map] using this

theorem processChunks_replicate_err (m : Nat) : ∀ i : Nat,
    processChunks (List.replicate m ChunkResult.err) i =
      .ok ((List.range m).map (fun j => chunkPlaceholder (i + j + 1))) := by
  induction m with
  | zero => intro i; simp [processChunks]
  | succ m ih =>
    intro i
    rw [List.replicate_succ]
    simp only [processChunks, ih (i + 1), Except.map, List.range_succ_eq_map,
      List.map_cons, List.map_map]
    have harith : ∀ j : Nat, i + 1 + j + 1 = i + (j + 1) + 1 := by omega
    simp [Function.comp, harith, Nat.succ_eq_add_one]

theorem tenth_iff (e w : Nat) :
    ((e : ℚ) > (w : ℚ) * (1 / 10)) ↔ 10 * e > w := by
  rw [gt_iff_lt, mul_one_div, div_lt_iff₀ (by norm_num : (0 : ℚ) < 10)]
  rw [show ((e : ℚ) * 10) = ((10 * e : ℕ) : ℚ) by push_cast; ring]
  rw [gt_iff_lt]
  exact_mod_cast Iff.rfl

theorem ceil_div_toNat (a b : ℕ) :
    (⌈(a : ℚ) / (b : ℚ)⌉).toNat = (a + b - 1) / b := by
  rcases Nat.eq_zero_or_pos b with hb | hb
  · subst hb
    simp
  · have hbq : (0 : ℚ) < b := by exact_mod_cast hb
    have hdm := Nat.div_add_mod (a + b - 1) b
    have hmod := Nat.mod_lt (a + b - 1) hb
    have hlow : a ≤ b * ((a + b - 1) / b) := by omega
    have hhigh : b * ((a + b - 1) / b) < a + b := by omega
    have hlowQ : (a : ℚ) ≤ (b : ℚ) * (((a + b - 1) / b : ℕ) : ℚ) := by
      exact_mod_cast hlow
    have hhighQ : (b : ℚ) * (((a + b - 1) / b : ℕ) : ℚ) < (a : ℚ) + b := by
      exact_mod_cast hhigh
    have hceil : ⌈(a : ℚ) / (b : ℚ)⌉ = (((a + b - 1) / b : ℕ) : ℤ) := by
      rw [Int.ceil_eq_iff]
      constructor
      · rw [Int.cast_natCast, lt_div_iff₀ hbq]
        nlinarith [hhighQ]
      · rw [Int.cast_natCast, div_le_iff₀ hbq]
        nlinarith [hlowQ]
    rw [hceil, Int.toNat_natCast]

theorem splitLoop_fail (extractOk : Nat → Bool) : ∀ (n i : Nat) (acc : List Nat),
    (∃ k, k < n ∧ extractOk (i + k) = false) →
    splitChunksLoop extractOk n i acc = (.error "Failed to split audio file", []) := by
  intro n
  induction n with
  | zero =>
    rintro i acc ⟨k, hk, _⟩
    omega
  | succ n ih =>
    rintro i acc ⟨k, hk, hfail⟩
    unfold splitChunksLoop
    by_cases hi : extractOk i = true
    · rw [if_pos hi]
      apply ih
      cases k with
      | zero =>
        rw [Nat.add_zero] at hfail
        rw [hfail] at hi
        cases hi
      | succ k2 =>
        refine ⟨k2, by omega, ?_⟩
        rw [show i + 1 + k2 = i + (k2 + 1) by omega]
        exact hfail
    · rw [if_neg hi]

/-! ## Claim theorems -/

/-- C1 counterexample: with a single chunk whose ASR call fails with a
non-timeout error (so *every* chunk failed), `transcribe_with_whisper`
does **not** fail terminally: the failed chunk contributed the non-empty
placeholder string, the empty-transcript guard does not fire, and a
transcript is returned. -/
theorem transcribe_all_failed_counterexample :
    transcribe_with_whisper (some "key") (.ok [.err]) =
      .ok ("[Error transcribing chunk 1]", 1) := by decide

/-- C1 (amended): for every non-empty chunk list in which the ASR call of
every chunk fails with a non-timeout error, `transcribe_with_whisper`
succeeds and returns the space-join of the per-chunk placeholder
markers, with chunk count `n`; the empty-or-whitespace-only guard never
fires in this situation because the placeholders are themselves
non-whitespace text. -/
theorem transcribe_all_chunks_failed_returns_placeholders (key : String) (n : Nat) :
    transcribe_with_whisper (some key) (.ok (List.replicate (n + 1) .err)) =
      .ok (pyJoin " " ((List.range (n + 1)).map (fun j => chunkPlaceholder (j + 1))),
        n + 1) := by
  have hp := processChunks_replicate_err (n + 1) 0
  rw [show (fun j => chunkPlaceholder (0 + j + 1)) =
      (fun j => chunkPlaceholder (j + 1)) from
    funext (fun j => by rw [Nat.zero_add])] at hp
  have hguard : pyStrip (pyJoin " "
      ((List.range (n + 1)).map (fun j => chunkPlaceholder (j + 1)))) ≠ "" := by
    apply pyStrip_ne_empty (c := '[')
    · apply mem_data_pyJoin (t := chunkPlaceholder 1)
      · exact List.mem_map.mpr ⟨0, List.mem_range.mpr (by omega), rfl⟩
      · exact lbrack_mem_chunkPlaceholder 1
    · decide
  have := transcribe_ok_of_processChunks key _ _ hp hguard
  simpa using this

/-- C2: evaluating the `finally` cleanup of `transcribe_with_whisper` on
a directory holding the source audio file and two produced chunk files:
the source file is removed, but the chunk-file filter
`file.endswith("_chunk_") and file.endswith(".mp3")` is unsatisfiable
(chunk files are named `..._chunk_i.mp3`), so both chunk files remain
on disk and the non-empty temporary directory cannot be removed. -/
theorem whisper_cleanup_leaves_chunk_files :
    whisperCleanup ["audio.mp3", "audio_chunk_1.mp3", "audio_chunk_2.mp3"]
        "audio.mp3" =
      (["audio_chunk_1.mp3", "audio_chunk_2.mp3"], false) := by decide

/-- C6: if exactly one chunk (at position `pre.length`) fails with a
non-timeout error and every other chunk succeeds,
`transcribe_with_whisper` returns the per-chunk outputs joined in chunk
order by a single space, with the placeholder marker exactly at the
failed position, and the reported chunk count equals the full number of
chunks. -/
theorem transcribe_single_error_keeps_order_and_count
    (key : String) (pre post : List String)
    (h : ∀ t ∈ pre ++ post, t ≠ chunkPlaceholder (pre.length + 1)) :
    transcribe_with_whisper (some key)
        (.ok (pre.map ChunkResult.ok ++ ChunkResult.err :: post.map ChunkResult.ok)) =
      .ok (pyJoin " " (pre ++ chunkPlaceholder (pre.length + 1) :: post),
        pre.length + 1 + post.length) ∧
    (pre ++ chunkPlaceholder (pre.length + 1) :: post).count
        (chunkPlaceholder (pre.length + 1)) = 1 := by
  have hmem : chunkPlaceholder (pre.length + 1) ∈
      pre ++ chunkPlaceholder (pre.length + 1) :: post :=
    List.mem_append_right _ (List.mem_cons_self _ _)
  constructor
  · have h1 : processChunks (ChunkResult.err :: post.map ChunkResult.ok)
        (0 + pre.length) = .ok (chunkPlaceholder (pre.length + 1) :: post) := by
      have hstep : processChunks (ChunkResult.err :: post.map ChunkResult.ok)
          (0 + pre.length) =
          (processChunks (post.map ChunkResult.ok) (0 + pre.length + 1)).map
            (fun ts => chunkPlaceholder (0 + pre.length + 1) :: ts) := rfl
      rw [hstep, processChunks_all_ok]
      simp [Except.map]
    have hp : processChunks
        (pre.map ChunkResult.ok ++ ChunkResult.err :: post.map ChunkResult.ok) 0 =
        .ok (pre ++ chunkPlaceholder (pre.length + 1) :: post) := by
      rw [processChunks_map_ok, h1]
      rfl
    have hguard : pyStrip (pyJoin " "
        (pre ++ chunkPlaceholder (pre.length + 1) :: post)) ≠ "" := by
      apply pyStrip_ne_empty (c := '[')
      · exact mem_data_pyJoin hmem (lbrack_mem_chunkPlaceholder _)
      · decide
    have hres := transcribe_ok_of_processChunks key _ _ hp hguard
    rw [hres]
    have hlen : (pre.map ChunkResult.ok ++
        ChunkResult.err :: post.map ChunkResult.ok).length =
        pre.length + 1 + post.length := by
      simp [List.length_append]
      omega
    rw [hlen]
  · rw [List.count_append, List.count_cons_self]
    have hpre : pre.count (chunkPlaceholder (pre.length + 1)) = 0 :=
      List.count_eq_zero.mpr
        (fun hmem2 => h _ (List.mem_append_left _ hmem2) rfl)
    have hpost : post.count (chunkPlaceholder (pre.length + 1)) = 0 :=
      List.count_eq_zero.mpr
        (fun hmem2 => h _ (List.mem_append_right _ hmem2) rfl)
    rw [hpre, hpost]

/-- Witness for C6 at a concrete three-chunk run whose middle chunk
fails. -/
theorem transcribe_single_error_keeps_order_and_count_witness :
    (∀ t ∈ ["hello", "world"], t ≠ chunkPlaceholder 2) ∧
    (transcribe_with_whisper (some "key")
        (.ok ([.ok "hello", .err, .ok "world"])) =
      .ok ("hello [Error transcribing chunk 2] world", 3) ∧
    (["hello", chunkPlaceholder 2, "world"]).count (chunkPlaceholder 2) = 1) := by
  refine ⟨by decide, ?_, ?_⟩
  · exact (transcribe_single_error_keeps_order_and_count "key" ["hello"] ["world"]
      (by decide)).1
  · exact (transcribe_single_error_keeps_order_and_count "key" ["hello"] ["world"]
      (by decide)).2

/-- C9: whenever any chunk extraction fails, the split loop deletes every
chunk file already produced and the whole split operation fails with an
error; no partial chunk set is ever returned. -/
theorem split_failure_cleans_up_and_fails (extractOk : Nat → Bool) (n : Nat)
    (h : ∃ i, i < n ∧ extractOk i = false) :
    splitChunksRun extractOk n = (.error "Failed to split audio file", []) := by
  unfold splitChunksRun
  apply splitLoop_fail
  obtain ⟨i, hi, hfail⟩ := h
  exact ⟨i, hi, by simpa using hfail⟩

/-- Witness for C9: three chunks where extraction of chunk 1 fails. -/
theorem split_failure_cleans_up_and_fails_witness :
    (∃ i, i < 3 ∧ (fun j => decide (j ≠ 1)) i = false) ∧
    splitChunksRun (fun j => decide (j ≠ 1)) 3 =
      (.error "Failed to split audio file", []) :=
  ⟨⟨1, by decide⟩,
    split_failure_cleans_up_and_fails (fun j => decide (j ≠ 1)) 3 ⟨1, by decide⟩⟩

/-- C7: `split_audio_file` equals the reference splitter from the
specification on every input, and on a 60 MB file with a 25 MB
threshold and probed duration 300 s it produces exactly the three
100 s chunks at offsets 0 s, 100 s and 200 s. -/
theorem split_audio_file_matches_reference :
    (∀ (fileSize : Nat) (probedDuration : Option ℚ) (maxMB : Nat),
      split_audio_file fileSize probedDuration maxMB =
        splitSpec fileSize probedDuration maxMB) ∧
    split_audio_file (60 * 1024 * 1024) (some 300) 25 =
      .chunks [(0, 100), (100, 100), (200, 100)] := by
  have hmain : ∀ (fileSize : Nat) (probedDuration : Option ℚ) (maxMB : Nat),
      split_audio_file fileSize probedDuration maxMB =
        splitSpec fileSize probedDuration maxMB := by
    intro S d M
    simp only [split_audio_file, splitSpec]
    rw [ceil_div_toNat]
  refine ⟨hmain, ?_⟩
  rw [hmain]
  have hnum : (60 * 1024 * 1024 + 25 * 1024 * 1024 - 1) / (25 * 1024 * 1024) = 3 := by
    norm_num
  simp only [splitSpec, hnum]
  rw [if_neg (by norm_num)]
  simp only [List.range_succ, List.range_zero, List.map_append, List.map_cons,
    List.map_nil, Option.getD_some]
  norm_num

/-- C8: `validate_transcript_quality` equals the reference decision
procedure of the specification on every string (in particular, the
integer threshold test in the code agrees with the exact rational
ten-percent-of-word-count fraction in the specification); moreover a 49-character text is
rejected as too short, 50 identical non-error characters followed by a
question mark are accepted, and a 20-word text with 3 error-indicator
words (15%) is rejected as poor quality. -/
theorem quality_gate_matches_reference :
    (∀ s, validate_transcript_quality s = validateQualitySpec s) ∧
    validate_transcript_quality ⟨List.replicate 49 'a'⟩ =
      (false, "Transcript too short for meaningful analysis") ∧
    validate_transcript_quality (⟨List.replicate 50 'a'⟩ ++ "?") =
      (true, "Transcript quality acceptable") ∧
    validate_transcript_quality
        "??? ??? ??? alpha beta gamma delta epsilon zeta eta theta iota kappa lam mu nu xi omicron pi rho" =
      (false, "Transcript quality too poor for reliable analysis") := by
  refine ⟨?_, by decide, by decide, by decide⟩
  intro s
  unfold validate_transcript_quality validateQualitySpec
  have h1 : (s = "" ∨ (pyStrip s).length < 50) ↔ (pyStrip s).length < 50 :=
    ⟨fun h => h.elim (fun he => by subst he; decide) id, Or.inr⟩
  rw [if_congr h1 rfl (if_congr (tenth_iff _ _).symm rfl rfl)]

/-- C5: a structured-list item that fails schema validation is dropped
individually — both the Q&A task and the skill-assessment task return
exactly the validated subset of the service items, in order, rather
than failing the task; in particular a five-item Q&A payload with one
out-of-range item yields exactly the four valid items. -/
theorem invalid_items_dropped_individually :
    (∀ (key : String) (raws : List RawQuestionAnswer),
      extract_qa_with_openai (some key) (.ok raws) =
        .ok (raws.filterMap validateQuestionAnswer)) ∧
    (∀ (key : String) (raws : List RawSkillAssessment),
      assess_skills_with_openai (some key) ["Python"] (.ok raws) =
        .ok (raws.filterMap validateSkillAssessment)) ∧
    extract_qa_with_openai (some "key") (.ok fiveRawQA) = .ok fourValidQA := by
  refine ⟨fun key raws => rfl, fun key raws => ?_, by decide⟩
  simp [assess_skills_with_openai]

/-- C3: whenever an `/analyze-interview` run reaches the summary step
with all three analysis tasks succeeded and the summary-synthesis call
fails, the whole analysis still succeeds and the response carries the
degraded placeholder text in `analysis_summary`; summary failure is
never a terminal error. -/
theorem summary_failure_is_nonfatal
    (fileExtension filename skills_to_assess : String)
    (fileSize : Nat) (key : String)
    (splitOutcome : Except String (List ChunkResult))
    (formatSvc : Except ApiError String)
    (skillsSvc : Except ApiError (List RawSkillAssessment))
    (qaSvc : Except ApiError (List RawQuestionAnswer))
    (insightsSvc : Except ApiError RawInterviewInsights)
    (emsg : ApiError)
    (rt ft : String) (nc : Nat)
    (sa : List SkillAssessment) (qa : List QuestionAnswer) (ins : InterviewInsights)
    (hext : fileExtension ∈ allowed_extensions)
    (hne : parseSkillsInput skills_to_assess ≠ [])
    (hle : (parseSkillsInput skills_to_assess).length ≤ 20)
    (hfs : fileSize ≤ MAX_FILE_SIZE)
    (htr : transcribe_with_whisper (some key) splitOutcome = .ok (rt, nc))
    (hq : (validate_transcript_quality rt).1 = true)
    (hfmt : format_with_openai (some key) formatSvc = .ok ft)
    (hsk : assess_skills_with_openai (some key) (parseSkillsInput skills_to_assess)
      skillsSvc = .ok sa)
    (hqa : extract_qa_with_openai (some key) qaSvc = .ok qa)
    (hins : generate_interview_insights_with_openai (some key) insightsSvc = .ok ins) :
    analyze_interview_comprehensive fileExtension filename skills_to_assess "openai"
        fileSize (some key) splitOutcome formatSvc skillsSvc qaSvc insightsSvc
        (.error emsg) =
      .ok ⟨none, some filename, rt, ft, "openai", some nc, sa, qa, ins,
        "Summary generation failed: " ++ apiErrorMsg emsg⟩ := by
  have hext2 : ¬ fileExtension ∉ allowed_extensions := by simpa using hext
  have hle2 : ¬ (parseSkillsInput skills_to_assess).length > 20 := by omega
  have hfs2 : ¬ MAX_FILE_SIZE < fileSize := by omega
  simp only [analyze_interview_comprehensive, if_neg hext2, if_neg hne, if_neg hle2,
    if_neg hfs2, if_neg (by simp : ¬ ("openai" : String) ≠ "openai"), htr, hq, hfmt,
    hsk, hqa, hins, generate_analysis_summary_with_openai]
  simp

/-- Witness for C3 at a fully concrete run: every upstream call
succeeds, the summary service fails, and the endpoint still returns a
report whose summary is the placeholder text. -/
theorem summary_failure_is_nonfatal_witness :
    (".mp3" ∈ allowed_extensions) ∧
    transcribe_with_whisper (some "k") (.ok [.ok goodTranscript]) =
      .ok (goodTranscript, 1) ∧
    (validate_transcript_quality goodTranscript).1 = true ∧
    analyze_interview_comprehensive ".mp3" "interview.mp3" "Python" "openai"
        0 (some "k") (.ok [.ok goodTranscript]) (.ok "formatted") (.ok [])
        (.ok []) (.ok sampleRawInsights) (.error (.fail "boom")) =
      .ok ⟨none, some "interview.mp3", goodTranscript, "formatted", "openai",
        some 1, [], [], sampleInsights,
        "Summary generation failed: " ++ apiErrorMsg (.fail "boom")⟩ :=
  ⟨by decide, by decide, by decide,
    summary_failure_is_nonfatal ".mp3" "interview.mp3" "Python" 0 "k"
      (.ok [.ok goodTranscript]) (.ok "formatted") (.ok []) (.ok [])
      (.ok sampleRawInsights) (.fail "boom") goodTranscript "formatted" 1 [] []
      sampleInsights (by decide) (by decide) (by decide) (by decide) (by decide)
      (by decide) (by decide) (by decide) (by decide) (by decide)⟩

/-- C4: if any one of the three analysis tasks (skill assessment, Q&A
extraction, insights) fails terminally, the whole
`/analyze-interview` call fails — no partial two-of-three response is
ever produced, regardless of which task failed or whether the other
two succeeded. -/
theorem analysis_fanout_all_or_nothing
    (fileExtension filename skills_to_assess ai_provider : String)
    (fileSize : Nat) (apiKey : Option String)
    (splitOutcome : Except String (List ChunkResult))
    (formatSvc : Except ApiError String)
    (skillsSvc : Except ApiError (List RawSkillAssessment))
    (qaSvc : Except ApiError (List RawQuestionAnswer))
    (insightsSvc : Except ApiError RawInterviewInsights)
    (summarySvc : Except ApiError String)
    (hfail : (assess_skills_with_openai apiKey (parseSkillsInput skills_to_assess)
        skillsSvc).isOk = false ∨
      (extract_qa_with_openai apiKey qaSvc).isOk = false ∨
      (generate_interview_insights_with_openai apiKey insightsSvc).isOk = false) :
    (analyze_interview_comprehensive fileExtension filename skills_to_assess
      ai_provider fileSize apiKey splitOutcome formatSvc skillsSvc qaSvc
      insightsSvc summarySvc).isOk = false := by
  simp only [analyze_interview_comprehensive]
  repeat' split
  all_goals simp_all [Except.isOk, Except.toBool]

/-- Witness for C4: the Q&A task fails terminally while the other two
would succeed; the endpoint fails. -/
theorem analysis_fanout_all_or_nothing_witness :
    ((assess_skills_with_openai (some "k") (parseSkillsInput "Python")
        (.ok [])).isOk = false ∨
      (extract_qa_with_openai (some "k")
        (.error (.fail "boom"))).isOk = false ∨
      (generate_interview_insights_with_openai (some "k")
        (.ok sampleRawInsights)).isOk = false) ∧
    (analyze_interview_comprehensive ".mp3" "interview.mp3" "Python" "openai"
      0 (some "k") (.ok [.ok goodTranscript]) (.ok "formatted") (.ok [])
      (.error (.fail "boom")) (.ok sampleRawInsights) (.ok "summary")).isOk =
        false :=
  ⟨Or.inr (Or.inl (by decide)),
    analysis_fanout_all_or_nothing ".mp3" "interview.mp3" "Python" "openai" 0
      (some "k") (.ok [.ok goodTranscript]) (.ok "formatted") (.ok [])
      (.error (.fail "boom")) (.ok sampleRawInsights) (.ok "summary")
      (Or.inr (Or.inl (by decide)))⟩

/-- C10: every successful `/analyze-transcript` response reports
`file_chunks = 1`, independent of the input file and transcript. -/
theorem analyze_transcript_reports_one_chunk
    (filename skills_to_assess ai_provider : String)
    (apiKey : Option String)
    (fileRead : Except String String)
    (formatSvc : Except ApiError String)
    (skillsSvc : Except ApiError (List RawSkillAssessment))
    (qaSvc : Except ApiError (List RawQuestionAnswer))
    (insightsSvc : Except ApiError RawInterviewInsights)
    (summarySvc : Except ApiError String)
    (resp : ComprehensiveAnalysisResponse)
    (hok : analyze_transcript filename skills_to_assess ai_provider apiKey
      fileRead formatSvc skillsSvc qaSvc insightsSvc summarySvc = .ok resp) :
    resp.file_chunks = some 1 := by
  simp only [analyze_transcript] at hok
  repeat' split at hok
  all_goals simp_all
  subst hok
  rfl

/-- Witness for C10 at a fully concrete successful run. -/
theorem analyze_transcript_reports_one_chunk_witness :
    analyze_transcript "t.txt" "Python" "openai" (some "k") (.ok goodTranscript)
        (.ok "formatted") (.ok []) (.ok fiveRawQA) (.ok sampleRawInsights)
        (.ok "summary") =
      .ok ⟨none, some "t.txt", goodTranscript, "formatted", "openai", some 1,
        [], fourValidQA, sampleInsights, "summary"⟩ ∧
    (ComprehensiveAnalysisResponse.mk none (some "t.txt") goodTranscript
        "formatted" "openai" (some 1) [] fourValidQA sampleInsights
        "summary").file_chunks = some 1 :=
  ⟨by decide,
    analyze_transcript_reports_one_chunk "t.txt" "Python" "openai" (some "k")
      (.ok goodTranscript) (.ok "formatted") (.ok []) (.ok fiveRawQA)
      (.ok sampleRawInsights) (.ok "summary") _ (by decide)⟩
